import Mathlib

/-!
Shallow embedding of the weather/PDF RAG agent (`main.py`, `test_main.py`,
`app.py`).  The two Python variants share the graph wiring, the router and
the weather node; they differ in the PDF-context node, the response
generator and the ingestion failure handling, so those are embedded twice,
in namespaces `MainPy` and `TestPy`.

External services (LLM chain invocations, the OpenWeatherMap HTTP call,
PyPDFLoader + text splitter, the Qdrant vector store) are opaque to the
program; they are modelled as an environment `Env` of `Except`-valued
oracles, where `.error msg` stands for a raised Python exception with text
`msg`.  The in-memory Qdrant store built by `from_documents(splits, ...)`
is modelled by the list of chunk texts it stores; similarity search is an
oracle choosing indices into that list, so retrieval provably returns only
stored chunks.

Python string primitives used by the code (`str.lower`, `str.strip`,
`str.split()` with no argument, substring membership `k in s`) are
embedded explicitly at the character-list level.  Whitespace is
`Char.isWhitespace` (space, tab, CR, LF), matching the characters the
repository's data can contain.
-/

/-- Python `a.startswith(b)` on character lists: `listIsPre needle hay`. -/
def listIsPre : List Char → List Char → Bool
  | [], _ => true
  | _ :: _, [] => false
  | a :: as, b :: bs => a == b && listIsPre as bs

/-- Python substring membership `needle in hay` on character lists. -/
def containsSub (needle : List Char) : List Char → Bool
  | [] => listIsPre needle []
  | c :: cs => listIsPre needle (c :: cs) || containsSub needle cs

/-- Python `s.lower()` (ASCII case folding, as `Char.toLower`). -/
def pyLower (s : String) : String := ⟨s.data.map Char.toLower⟩

/-- Python substring membership `needle in hay` on strings. -/
def pyContains (hay needle : String) : Bool := containsSub needle.data hay.data

/-- Drop leading whitespace characters. -/
def dropWs : List Char → List Char
  | [] => []
  | c :: cs => if c.isWhitespace then dropWs cs else c :: cs

/-- Python `s.strip()` on character lists: drop leading, then trailing
whitespace. -/
def pyStripList (cs : List Char) : List Char :=
  ((dropWs ((dropWs cs).reverse)).reverse)

/-- Python `s.strip()`. -/
def pyStrip (s : String) : String := ⟨pyStripList s.data⟩

/-- Accumulator pass for Python `s.split()`: `cur` is the current word,
reversed. -/
def wordsAux (cur : List Char) : List Char → List (List Char)
  | [] => if cur.isEmpty then [] else [cur.reverse]
  | c :: cs =>
    if c.isWhitespace then
      if cur.isEmpty then wordsAux [] cs else cur.reverse :: wordsAux [] cs
    else
      wordsAux (c :: cur) cs

/-- Python `s.split()` with no argument: whitespace-separated words, no
empty pieces. -/
def pyWords (s : String) : List String := (wordsAux [] s.data).map (fun w => ⟨w⟩)

/-- Python `set(s.lower().split())`: the distinct lower-cased
whitespace-separated tokens of `s`. -/
def tokenSet (s : String) : List String := (pyWords (pyLower s)).dedup

/-- Python `len(set(q.lower().split()) & set(c.lower().split()))`. -/
def overlapCount (q c : String) : Nat :=
  ((tokenSet q).filter (fun t => t ∈ tokenSet c)).length

/-- The `query_type` literal of `GraphState` (`"weather" | "pdf" | "unknown"`). -/
inductive QueryType
  | weather
  | pdf
  | unknown
deriving DecidableEq, Repr

/-- The structured weather fields built by `fetch_weather` from the
provider JSON.  Numeric JSON values are carried as their textual form:
the program never computes with them, it only formats them into a prompt. -/
structure Weather where
  city : String
  temperature : String
  feels_like : String
  description : String
  humidity : String
  wind_speed : String
deriving DecidableEq, Repr

/-- The pipeline record `GraphState` (`main.py:32`, `test_main.py:35`).
The Python `weather_data` dict is either empty (`none`) or holds the six
fields (`some w`). -/
structure GraphState where
  query : String
  query_type : QueryType
  weather_data : Option Weather
  pdf_context : String
  llm_response : String
  error : String
deriving DecidableEq, Repr

/-- The fresh record built by `AIAgent.query` before invoking the graph. -/
def initState (userQuery : String) : GraphState :=
  { query := userQuery
    query_type := .unknown
    weather_data := none
    pdf_context := ""
    llm_response := ""
    error := "" }

/-- Oracles for every external call the agent makes.  `.error msg`
models a raised exception carrying text `msg`.
  - `llmCity`: the `(prompt | llm).invoke` of `_extract_city` (its
    `.content`);
  - `weatherApi`: the OpenWeatherMap GET including `raise_for_status`,
    `.json()` and the six field lookups — any of these raising is `.error`;
  - `search`: `as_retriever(...).get_relevant_documents(query)` against a
    store holding the given chunks, returning indices of the chunks chosen;
  - `genWeather` / `genPdf`: the two `(prompt | llm).invoke` calls of
    `generate_response`;
  - `loadChunks`: `PyPDFLoader(path).load()` plus
    `RecursiveCharacterTextSplitter.split_documents`, giving chunk texts;
  - `buildIndex`: `QdrantVectorStore.from_documents` succeeding or raising. -/
structure Env where
  llmCity : String → Except String String
  weatherApi : String → Except String Weather
  search : List String → String → Except String (List Nat)
  genWeather : Weather → String → Except String String
  genPdf : String → String → Except String String
  loadChunks : String → Except String (List String)
  buildIndex : List String → Except String Unit

/-- The vector store field `self.vector_store`: `none` before any
successful `load_pdf`, otherwise the chunk texts stored in the in-memory
Qdrant collection. -/
abbrev Store := Option (List String)

/-- The keyword list of `route_query` (identical in both variants). -/
def weatherKeywords : List String :=
  ["weather", "temperature", "forecast", "climate", "rain", "sunny", "cloudy"]

/-- Python `any(k in query for k in weather_keywords)` after lower-casing. -/
def hasWeatherKeyword (query : String) : Bool :=
  weatherKeywords.any (fun k => pyContains (pyLower query) k)

/-- `AIAgent.route_query` (`main.py:122`, `test_main.py:128`; the two
variants are textually identical).  `vs` is `self.vector_store`. -/
def route_query (vs : Store) (state : GraphState) : GraphState :=
  if hasWeatherKeyword state.query then
    { state with query_type := .weather }
  else if vs.isSome then
    { state with query_type := .pdf }
  else
    { state with query_type := .unknown }

/-- `AIAgent.decide_path` (identical in both variants). -/
def decide_path (state : GraphState) : QueryType := state.query_type

/-- `AIAgent._extract_city` (`main.py:181`, `test_main.py:190`; both
variants catch every exception and both fall back to `"London"` when the
stripped content is empty). -/
def extract_city (env : Env) (query : String) : String :=
  match env.llmCity query with
  | .ok content => if pyStrip content = "" then "London" else pyStrip content
  | .error _ => "London"

/-- `AIAgent.fetch_weather` (`main.py:149`, `test_main.py:158`; identical
behaviour: `_extract_city` cannot raise, so the `except` branch fires
exactly when the HTTP call, status check, JSON decode or a field lookup
raises, and then empties `weather_data` and records the error text). -/
def fetch_weather (env : Env) (state : GraphState) : GraphState :=
  match env.weatherApi (extract_city env state.query) with
  | .ok w => { state with weather_data := some w }
  | .error _ =>
      { state with
          weather_data := none
          error := "Weather data could not be retrieved." }

-- Quick sanity checks of the string embedding.
example : pyContains (pyLower "Is it Sunny today?") "sunny" = true := by decide
example : pyContains (pyLower "hello there") "rain" = false := by decide
example : pyWords "  a  bc " = ["a", "bc"] := by decide
example : pyStrip "  a " = "a" := by decide
example : overlapCount "the cat sat" "a cat sat down" = 2 := by decide

/-- The documents returned by `retriever.get_relevant_documents(query)`
against a store holding `docs`: the search oracle picks indices, and the
retrieved texts are the chunks at those indices. -/
def retrievedDocs (env : Env) (docs : List String) (query : String) :
    Except String (List String) :=
  (env.search docs query).map (fun idxs => idxs.filterMap (fun i => docs.get? i))

namespace MainPy

/-- `AIAgent.fetch_pdf_context` (`main.py:196`).  When
`self.vector_store` is `None`, `None.as_retriever` raises
`AttributeError`, which the `except` catches, leaving `pdf_context = ""`;
a retrieval exception is caught the same way. -/
def fetch_pdf_context (env : Env) (vs : Store) (state : GraphState) : GraphState :=
  match vs with
  | none => { state with pdf_context := "" }
  | some docs =>
    match retrievedDocs env docs state.query with
    | .ok ds => { state with pdf_context := String.intercalate "\n\n" ds }
    | .error _ => { state with pdf_context := "" }

/-- `AIAgent._is_context_relevant` (`main.py:210`). -/
def is_context_relevant (query context : String) : Bool :=
  if pyStrip context = "" then false
  else decide (2 ≤ overlapCount query context)

/-- The fixed refusal stored when the relevance guard rejects
(`main.py:247`). -/
def refusalMsg : String :=
  "Please ask a question strictly related to the uploaded PDF documents. I cannot answer general knowledge questions."

/-- The fixed message for an `unknown` classification (`main.py:267`). -/
def unknownMsg : String :=
  "Please ask a weather-related question or a question based on the available PDF documents."

/-- The fixed fallback stored by the `except` clause (`main.py:274`). -/
def errMsg : String := "An error occurred while generating the response."

/-- `AIAgent.generate_response` (`main.py:225`).  The second component
records whether control reached an `(prompt | self.llm).invoke` call.
In the weather branch with an empty `weather_data` dict, the prompt
formatting inside `invoke` raises `KeyError` on the missing template
variables, so the `except` clause stores `errMsg`. -/
def generate_response (env : Env) (state : GraphState) : GraphState × Bool :=
  match state.query_type with
  | .weather =>
    match state.weather_data with
    | none => ({ state with llm_response := errMsg }, true)
    | some w =>
      match env.genWeather w state.query with
      | .ok content => ({ state with llm_response := content }, true)
      | .error _ => ({ state with llm_response := errMsg }, true)
  | .pdf =>
    if ¬ is_context_relevant state.query state.pdf_context then
      ({ state with llm_response := refusalMsg }, false)
    else
      match env.genPdf state.pdf_context state.query with
      | .ok content => ({ state with llm_response := content }, true)
      | .error _ => ({ state with llm_response := errMsg }, true)
  | .unknown => ({ state with llm_response := unknownMsg }, false)

/-- `AIAgent.load_pdf` (`main.py:282`).  Returns the boolean result and
the new `self.vector_store`.  `self.vector_store` is only assigned after
`from_documents` succeeds, so any exception in the `try` body leaves the
prior store untouched. -/
def load_pdf (env : Env) (vs : Store) (pdf_path : String) : Bool × Store :=
  match env.loadChunks pdf_path with
  | .error _ => (false, vs)
  | .ok splits =>
    match env.buildIndex splits with
    | .error _ => (false, vs)
    | .ok _ => (true, some splits)

end MainPy

namespace TestPy

/-- `AIAgent.fetch_pdf_context` (`test_main.py:205`): explicit early
return with empty context when no store is loaded, and the same
catch-all around retrieval. -/
def fetch_pdf_context (env : Env) (vs : Store) (state : GraphState) : GraphState :=
  match vs with
  | none => { state with pdf_context := "" }
  | some docs =>
    match retrievedDocs env docs state.query with
    | .ok ds => { state with pdf_context := String.intercalate "\n\n" ds }
    | .error _ => { state with pdf_context := "" }

/-- The fixed message of the `else` branch (`test_main.py:254`). -/
def unknownMsg : String :=
  "I couldn\x27t determine whether this is a weather or document query."

/-- `AIAgent.generate_response` (`test_main.py:225`).  The weather branch
additionally requires a non-empty `weather_data` dict; there is no
relevance guard; the `except` clause stores `str(e)`.  The second
component records whether an `invoke` call was reached. -/
def generate_response (env : Env) (state : GraphState) : GraphState × Bool :=
  match state.query_type, state.weather_data with
  | .weather, some w =>
    match env.genWeather w state.query with
    | .ok content => ({ state with llm_response := content }, true)
    | .error e => ({ state with llm_response := e }, true)
  | .pdf, _ =>
    match env.genPdf state.pdf_context state.query with
    | .ok content => ({ state with llm_response := content }, true)
    | .error e => ({ state with llm_response := e }, true)
  | .weather, none => ({ state with llm_response := unknownMsg }, false)
  | .unknown, _ => ({ state with llm_response := unknownMsg }, false)

/-- `AIAgent.load_pdf` (`test_main.py:268`): the `except` clause sets
`self.vector_store = None` before returning `False`. -/
def load_pdf (env : Env) (_vs : Store) (pdf_path : String) : Bool × Store :=
  match env.loadChunks pdf_path with
  | .error _ => (false, none)
  | .ok splits =>
    match env.buildIndex splits with
    | .error _ => (false, none)
    | .ok _ => (true, some splits)

end TestPy

/-- The four graph nodes added by `_build_graph` (identical wiring in
both variants). -/
inductive Node
  | router
  | fetchWeather
  | fetchPdf
  | generateResponse
deriving DecidableEq, Repr

/-- The conditional-edges mapping passed for the router
(`{"weather": "fetch_weather", "pdf": "fetch_pdf_context", "unknown": "generate_response"}`). -/
def branchTarget : QueryType → Node
  | .weather => .fetchWeather
  | .pdf => .fetchPdf
  | .unknown => .generateResponse

/-- The edge structure of the compiled graph: the router branches on
`decide_path` of the state it produced; both fetch nodes feed
`generate_response`; `generate_response` reaches `END`. -/
def nextNode : Node → GraphState → Option Node
  | .router, s => some (branchTarget (decide_path s))
  | .fetchWeather, _ => some .generateResponse
  | .fetchPdf, _ => some .generateResponse
  | .generateResponse, _ => none

/-- Executes the compiled graph from node `n`: runs the node function,
follows edges until `END`, and also returns the list of nodes executed.
The fuel bound is irrelevant as soon as it covers the path length; the
graph is acyclic with longest path 3. -/
def runFrom (f : Node → GraphState → GraphState) :
    Nat → Node → GraphState → GraphState × List Node
  | 0, _, s => (s, [])
  | Nat.succ fuel, n, s =>
    let s2 := f n s
    match nextNode n s2 with
    | none => (s2, [n])
    | some n2 =>
      let r := runFrom f fuel n2 s2
      (r.fst, n :: r.snd)

/-- The node functions bound by `main.py`'s `_build_graph`. -/
def MainPy.nodeFn (env : Env) (vs : Store) : Node → GraphState → GraphState
  | .router, s => route_query vs s
  | .fetchWeather, s => fetch_weather env s
  | .fetchPdf, s => MainPy.fetch_pdf_context env vs s
  | .generateResponse, s => (MainPy.generate_response env s).fst

/-- The node functions bound by `test_main.py`'s `_build_graph`. -/
def TestPy.nodeFn (env : Env) (vs : Store) : Node → GraphState → GraphState
  | .router, s => route_query vs s
  | .fetchWeather, s => fetch_weather env s
  | .fetchPdf, s => TestPy.fetch_pdf_context env vs s
  | .generateResponse, s => (TestPy.generate_response env s).fst

/-- `AIAgent.query` (`main.py:311`): build the fresh record and invoke
the compiled graph from the entry point. -/
def MainPy.query (env : Env) (vs : Store) (user_query : String) : GraphState :=
  (runFrom (MainPy.nodeFn env vs) 4 .router (initState user_query)).fst

/-- The node-execution trace of a `main.py` `AIAgent.query` run. -/
def MainPy.queryTrace (env : Env) (vs : Store) (user_query : String) : List Node :=
  (runFrom (MainPy.nodeFn env vs) 4 .router (initState user_query)).snd

/-- `AIAgent.query` (`test_main.py:298`). -/
def TestPy.query (env : Env) (vs : Store) (user_query : String) : GraphState :=
  (runFrom (TestPy.nodeFn env vs) 4 .router (initState user_query)).fst

/-- The node-execution trace of a `test_main.py` `AIAgent.query` run. -/
def TestPy.queryTrace (env : Env) (vs : Store) (user_query : String) : List Node :=
  (runFrom (TestPy.nodeFn env vs) 4 .router (initState user_query)).snd

/-- The ingestion loop of `app.py`'s `initialize_agent` (`app.py:101`):
`for pdf_path in pdf_files: agent.load_pdf(pdf_path)` against the
`main.py` agent, tracking only the resulting `self.vector_store`. -/
def loadAllPdfs (env : Env) (vs : Store) (pdf_files : List String) : Store :=
  pdf_files.foldl (fun acc p => (MainPy.load_pdf env acc p).snd) vs

/-!  Helper lemmas shared by several claim theorems. -/

theorem fetch_weather_qt (env : Env) (s : GraphState) :
    (fetch_weather env s).query_type = s.query_type := by
  unfold fetch_weather
  cases env.weatherApi (extract_city env s.query) <;> rfl

theorem fetch_pdf_main_qt (env : Env) (vs : Store) (s : GraphState) :
    (MainPy.fetch_pdf_context env vs s).query_type = s.query_type := by
  cases vs with
  | none => rfl
  | some docs =>
    unfold MainPy.fetch_pdf_context
    cases h : retrievedDocs env docs s.query <;> simp [h]

theorem fetch_pdf_test_qt (env : Env) (vs : Store) (s : GraphState) :
    (TestPy.fetch_pdf_context env vs s).query_type = s.query_type := by
  cases vs with
  | none => rfl
  | some docs =>
    unfold TestPy.fetch_pdf_context
    cases h : retrievedDocs env docs s.query <;> simp [h]

theorem generate_main_qt (env : Env) (s : GraphState) :
    ((MainPy.generate_response env s).fst).query_type = s.query_type := by
  unfold MainPy.generate_response
  cases hqt : s.query_type with
  | weather =>
    cases s.weather_data with
    | none => simp [hqt]
    | some w => cases hg : env.genWeather w s.query <;> simp [hqt, hg]
  | pdf =>
    by_cases hg : MainPy.is_context_relevant s.query s.pdf_context
    · simp only [hqt, hg, not_true_eq_false, if_false]
      cases hp : env.genPdf s.pdf_context s.query <;> simp [hp]
    · simp [hqt, hg]
  | unknown => simp [hqt]

theorem generate_test_qt (env : Env) (s : GraphState) :
    ((TestPy.generate_response env s).fst).query_type = s.query_type := by
  unfold TestPy.generate_response
  cases hqt : s.query_type with
  | weather =>
    cases s.weather_data with
    | none => simp [hqt]
    | some w => cases hg : env.genWeather w s.query <;> simp [hqt, hg]
  | pdf => cases hp : env.genPdf s.pdf_context s.query <;> simp [hqt, hp]
  | unknown => simp [hqt]

theorem run_router_trace (f : Node → GraphState → GraphState) (s0 : GraphState) :
    (runFrom f 4 .router s0).snd =
      (match (f .router s0).query_type with
       | .weather => [Node.router, Node.fetchWeather, Node.generateResponse]
       | .pdf => [Node.router, Node.fetchPdf, Node.generateResponse]
       | .unknown => [Node.router, Node.generateResponse]) := by
  cases h : (f .router s0).query_type <;>
    simp [runFrom, nextNode, decide_path, branchTarget, h]

theorem run_router_state (f : Node → GraphState → GraphState) (s0 : GraphState) :
    (runFrom f 4 .router s0).fst =
      (match (f .router s0).query_type with
       | .weather => f .generateResponse (f .fetchWeather (f .router s0))
       | .pdf => f .generateResponse (f .fetchPdf (f .router s0))
       | .unknown => f .generateResponse (f .router s0)) := by
  cases h : (f .router s0).query_type <;>
    simp [runFrom, nextNode, decide_path, branchTarget, h]

/-!  Claim theorems. -/

/-- C1: the router is a total function of the query text and index
presence: a query whose lower-cased text contains a weather keyword is
classified `weather` regardless of the index; otherwise the
classification is `pdf` exactly when a vector index exists and `unknown`
otherwise.  (Both variants share this router verbatim.) -/
theorem c1_router_total (vs : Store) (s : GraphState) :
    (route_query vs s).query_type =
      (if hasWeatherKeyword s.query then QueryType.weather
       else if vs.isSome then QueryType.pdf else QueryType.unknown) := by
  unfold route_query
  by_cases hk : hasWeatherKeyword s.query
  · simp [hk]
  · by_cases hv : vs.isSome <;> simp [hk, hv]

/-- C4: document fetch with no loaded vector index leaves every field of
the record unchanged except `pdf_context`, which it sets to the empty
string, in both variants; being a total function of the record, it
cannot raise (in `main.py` the `AttributeError` from
`None.as_retriever` is swallowed by the `except` clause, in
`test_main.py` the `None` check returns early). -/
theorem c4_fetch_pdf_no_index (env : Env) (s : GraphState) :
    MainPy.fetch_pdf_context env none s = { s with pdf_context := "" } ∧
    TestPy.fetch_pdf_context env none s = { s with pdf_context := "" } :=
  ⟨rfl, rfl⟩

/-- C3: `query_type` is written by the router alone — the weather-fetch,
document-fetch and generation steps of both variants preserve it — and a
run of the compiled graph executes exactly the router, then the single
branch selected by the routed type (one fetch node, or none for
`unknown`), then the generator, with no node repeated; the final record
carries the router's classification unchanged. -/
theorem c3_single_route_single_branch (env : Env) (vs : Store) (q : String) :
    (∀ s, (fetch_weather env s).query_type = s.query_type) ∧
    (∀ s, (MainPy.fetch_pdf_context env vs s).query_type = s.query_type) ∧
    (∀ s, ((MainPy.generate_response env s).fst).query_type = s.query_type) ∧
    (∀ s, (TestPy.fetch_pdf_context env vs s).query_type = s.query_type) ∧
    (∀ s, ((TestPy.generate_response env s).fst).query_type = s.query_type) ∧
    MainPy.queryTrace env vs q =
      (match (route_query vs (initState q)).query_type with
       | .weather => [Node.router, Node.fetchWeather, Node.generateResponse]
       | .pdf => [Node.router, Node.fetchPdf, Node.generateResponse]
       | .unknown => [Node.router, Node.generateResponse]) ∧
    TestPy.queryTrace env vs q =
      (match (route_query vs (initState q)).query_type with
       | .weather => [Node.router, Node.fetchWeather, Node.generateResponse]
       | .pdf => [Node.router, Node.fetchPdf, Node.generateResponse]
       | .unknown => [Node.router, Node.generateResponse]) ∧
    (MainPy.queryTrace env vs q).Nodup ∧
    (TestPy.queryTrace env vs q).Nodup ∧
    (MainPy.query env vs q).query_type = (route_query vs (initState q)).query_type ∧
    (TestPy.query env vs q).query_type = (route_query vs (initState q)).query_type := by
  have hMtrace : MainPy.queryTrace env vs q =
      (match (route_query vs (initState q)).query_type with
       | .weather => [Node.router, Node.fetchWeather, Node.generateResponse]
       | .pdf => [Node.router, Node.fetchPdf, Node.generateResponse]
       | .unknown => [Node.router, Node.generateResponse]) :=
    run_router_trace (MainPy.nodeFn env vs) (initState q)
  have hTtrace : TestPy.queryTrace env vs q =
      (match (route_query vs (initState q)).query_type with
       | .weather => [Node.router, Node.fetchWeather, Node.generateResponse]
       | .pdf => [Node.router, Node.fetchPdf, Node.generateResponse]
       | .unknown => [Node.router, Node.generateResponse]) :=
    run_router_trace (TestPy.nodeFn env vs) (initState q)
  refine ⟨fun s => fetch_weather_qt env s,
          fun s => fetch_pdf_main_qt env vs s,
          fun s => generate_main_qt env s,
          fun s => fetch_pdf_test_qt env vs s,
          fun s => generate_test_qt env s,
          hMtrace, hTtrace, ?_, ?_, ?_, ?_⟩
  · rw [hMtrace]
    cases (route_query vs (initState q)).query_type <;> decide
  · rw [hTtrace]
    cases (route_query vs (initState q)).query_type <;> decide
  · have h := run_router_state (MainPy.nodeFn env vs) (initState q)
    show (runFrom (MainPy.nodeFn env vs) 4 .router (initState q)).fst.query_type = _
    rw [h]
    cases hr : (route_query vs (initState q)).query_type <;>
      simp [MainPy.nodeFn, hr, generate_main_qt, fetch_pdf_main_qt, fetch_weather_qt]
  · have h := run_router_state (TestPy.nodeFn env vs) (initState q)
    show (runFrom (TestPy.nodeFn env vs) 4 .router (initState q)).fst.query_type = _
    rw [h]
    cases hr : (route_query vs (initState q)).query_type <;>
      simp [TestPy.nodeFn, hr, generate_test_qt, fetch_pdf_test_qt, fetch_weather_qt]

/-!  Concrete environments used to witness theorems with hypotheses. -/

/-- A sample successful weather payload. -/
def wParis : Weather :=
  { city := "Paris"
    temperature := "20"
    feels_like := "19"
    description := "clear"
    humidity := "50"
    wind_speed := "3" }

/-- An environment in which every external call raises. -/
def envFail : Env :=
  { llmCity := fun _ => .error "boom"
    weatherApi := fun _ => .error "boom"
    search := fun _ _ => .error "boom"
    genWeather := fun _ _ => .error "boom"
    genPdf := fun _ _ => .error "boom"
    loadChunks := fun _ => .error "unreadable"
    buildIndex := fun _ => .error "boom" }

/-- An environment in which every external call succeeds with non-empty
output. -/
def envOk : Env :=
  { llmCity := fun _ => .ok "Paris"
    weatherApi := fun _ => .ok wParis
    search := fun _ _ => .ok [0]
    genWeather := fun _ _ => .ok "sunny answer"
    genPdf := fun _ _ => .ok "pdf answer"
    loadChunks := fun p => .ok [p ++ " chunk one", p ++ " chunk two"]
    buildIndex := fun _ => .ok () }

/-- Like `envOk` but the city-extraction LLM returns only whitespace. -/
def envWsCity : Env := { envOk with llmCity := fun _ => .ok "   " }

/-- C5: `load_pdf` is a total function (it cannot raise) and, in both
variants, returns `True` exactly when loading plus splitting the PDF and
building the index all succeed; on an unreadable or invalid path the
loader raises, so it returns `False`. -/
theorem c5_load_pdf_result (env : Env) (vs : Store) (p : String) :
    ((MainPy.load_pdf env vs p).fst = true ↔
       ∃ cs, env.loadChunks p = .ok cs ∧ env.buildIndex cs = .ok ()) ∧
    ((TestPy.load_pdf env vs p).fst = true ↔
       ∃ cs, env.loadChunks p = .ok cs ∧ env.buildIndex cs = .ok ()) := by
  constructor
  · unfold MainPy.load_pdf
    cases h1 : env.loadChunks p with
    | error e => simp [h1]
    | ok cs =>
      cases h2 : env.buildIndex cs with
      | error e => simp [h1, h2]
      | ok u => cases u; simp [h1, h2]
  · unfold TestPy.load_pdf
    cases h1 : env.loadChunks p with
    | error e => simp [h1]
    | ok cs =>
      cases h2 : env.buildIndex cs with
      | error e => simp [h1, h2]
      | ok u => cases u; simp [h1, h2]

/-- C6: when ingestion fails, `main.py` leaves the prior
`self.vector_store` exactly as it was, while `test_main.py` clears it to
`None`. -/
theorem c6_load_pdf_failure_frame (env : Env) (vs : Store) (p : String) :
    ((MainPy.load_pdf env vs p).fst = false → (MainPy.load_pdf env vs p).snd = vs) ∧
    ((TestPy.load_pdf env vs p).fst = false → (TestPy.load_pdf env vs p).snd = none) := by
  constructor
  · unfold MainPy.load_pdf
    cases h1 : env.loadChunks p with
    | error e => simp [h1]
    | ok cs =>
      cases h2 : env.buildIndex cs with
      | error e => simp [h1, h2]
      | ok u => simp [h1, h2]
  · unfold TestPy.load_pdf
    cases h1 : env.loadChunks p with
    | error e => simp [h1]
    | ok cs =>
      cases h2 : env.buildIndex cs with
      | error e => simp [h1, h2]
      | ok u => simp [h1, h2]

/-- Witness for C6: a concrete failing ingestion, with a prior index
loaded, keeps it in the `main.py` variant and clears it in the
`test_main.py` variant. -/
theorem c6_witness :
    (MainPy.load_pdf envFail (some ["old chunk"]) "missing.pdf").snd = some ["old chunk"] ∧
    (TestPy.load_pdf envFail (some ["old chunk"]) "missing.pdf").snd = none :=
  ⟨(c6_load_pdf_failure_frame envFail (some ["old chunk"]) "missing.pdf").1 rfl,
   (c6_load_pdf_failure_frame envFail (some ["old chunk"]) "missing.pdf").2 rfl⟩

/-- C7: whenever the weather call (HTTP request, status check, JSON
decoding or field lookup) raises, `fetch_weather` leaves `weather_data`
empty, records the fixed error text, and hands the record on — the edge
out of the weather node always leads to the generator, so the pipeline
continues instead of aborting. -/
theorem c7_fetch_weather_failure (env : Env) (s : GraphState)
    (h : ∃ e, env.weatherApi (extract_city env s.query) = .error e) :
    (fetch_weather env s).weather_data = none ∧
    (fetch_weather env s).error = "Weather data could not be retrieved." ∧
    nextNode .fetchWeather (fetch_weather env s) = some .generateResponse := by
  obtain ⟨e, he⟩ := h
  unfold fetch_weather
  simp [he, nextNode]

/-- Witness for C7 at a concrete failing provider. -/
theorem c7_witness :
    (fetch_weather envFail (initState "weather please")).weather_data = none ∧
    (fetch_weather envFail (initState "weather please")).error =
      "Weather data could not be retrieved." ∧
    nextNode .fetchWeather (fetch_weather envFail (initState "weather please")) =
      some .generateResponse :=
  c7_fetch_weather_failure envFail (initState "weather please") ⟨"boom", rfl⟩

/-- C8: city extraction returns `"London"` when the LLM call raises or
its stripped content is empty (in particular whitespace-only), and the
stripped content otherwise. -/
theorem c8_extract_city (env : Env) (q : String) :
    (∀ e, env.llmCity q = .error e → extract_city env q = "London") ∧
    (∀ c, env.llmCity q = .ok c → pyStrip c = "" → extract_city env q = "London") ∧
    (∀ c, env.llmCity q = .ok c → pyStrip c ≠ "" → extract_city env q = pyStrip c) := by
  refine ⟨fun e he => ?_, fun c hc hs => ?_, fun c hc hs => ?_⟩ <;>
    unfold extract_city
  · simp [he]
  · simp [hc, hs]
  · simp [hc, hs]

/-- Witness for C8: a raising LLM and a whitespace-only LLM yield
`"London"`; a successful LLM yields its stripped content. -/
theorem c8_witness :
    extract_city envFail "hi" = "London" ∧
    extract_city envWsCity "hi" = "London" ∧
    extract_city envOk "hi" = "Paris" :=
  ⟨(c8_extract_city envFail "hi").1 "boom" rfl,
   (c8_extract_city envWsCity "hi").2.1 "   " rfl (by decide),
   ((c8_extract_city envOk "hi").2.2 "Paris" rfl (by decide)).trans (by decide)⟩

/-!  Lemmas about the Python string primitives, feeding the relevance
guard claim: a string whose `strip()` is empty contributes no tokens. -/

theorem dropWs_eq_nil {l : List Char} (h : dropWs l = []) :
    ∀ x ∈ l, x.isWhitespace = true := by
  induction l with
  | nil => intro x hx; cases hx
  | cons c cs ih =>
    intro x hx
    by_cases hc : c.isWhitespace
    · rw [dropWs, if_pos hc] at h
      rcases List.mem_cons.mp hx with rfl | hx
      · exact hc
      · exact ih h x hx
    · rw [dropWs, if_neg hc] at h
      cases h

theorem mem_dropWs_or_ws {l : List Char} :
    ∀ x ∈ l, x ∈ dropWs l ∨ x.isWhitespace = true := by
  induction l with
  | nil => intro x hx; cases hx
  | cons c cs ih =>
    intro x hx
    by_cases hc : c.isWhitespace
    · rw [dropWs, if_pos hc]
      rcases List.mem_cons.mp hx with rfl | hx
      · exact Or.inr hc
      · exact ih x hx
    · rw [dropWs, if_neg hc]
      exact Or.inl hx

theorem pyStripList_eq_nil {cs : List Char} (h : pyStripList cs = []) :
    ∀ x ∈ cs, x.isWhitespace = true := by
  unfold pyStripList at h
  rw [List.reverse_eq_nil_iff] at h
  have hrev : ∀ x ∈ dropWs cs, x.isWhitespace = true := by
    intro x hx
    exact dropWs_eq_nil h x (by simpa using hx)
  intro x hx
  rcases mem_dropWs_or_ws x hx with hmem | hws
  · exact hrev x hmem
  · exact hws

theorem wordsAux_nil_of_ws {l : List Char} (h : ∀ x ∈ l, x.isWhitespace = true) :
    wordsAux [] l = [] := by
  induction l with
  | nil => rfl
  | cons c cs ih =>
    have hc : c.isWhitespace := h c (by simp)
    rw [wordsAux, if_pos hc]
    simp only [List.isEmpty_nil, if_true]
    exact ih (fun x hx => h x (by simp [hx]))

theorem toLower_ws {c : Char} (h : c.isWhitespace = true) :
    (Char.toLower c).isWhitespace = true := by
  simp only [Char.isWhitespace, Bool.or_eq_true, decide_eq_true_eq] at h
  rcases h with ((h | h) | h) | h <;> subst h <;> decide

theorem tokenSet_nil_of_strip_empty {c : String} (h : pyStrip c = "") :
    tokenSet c = [] := by
  have hdata : pyStripList c.data = [] := congrArg String.data h
  have hws : ∀ x ∈ c.data, x.isWhitespace = true := pyStripList_eq_nil hdata
  have hlow : ∀ x ∈ (pyLower c).data, x.isWhitespace = true := by
    intro x hx
    rcases List.mem_map.mp hx with ⟨y, hy, rfl⟩
    exact toLower_ws (hws y hy)
  unfold tokenSet pyWords
  rw [wordsAux_nil_of_ws hlow]
  rfl

theorem overlap_zero_of_strip_empty (q : String) {c : String} (h : pyStrip c = "") :
    overlapCount q c = 0 := by
  unfold overlapCount
  rw [tokenSet_nil_of_strip_empty h]
  simp

/-- C9: in the `main.py` variant, a document-routed record whose query
and retrieved context share fewer than two distinct lower-cased
whitespace-separated tokens (in particular, any empty context) makes the
generator store the fixed refusal message without reaching an LLM
invocation, while two or more shared tokens pass the guard and the LLM
is invoked. -/
theorem c9_relevance_guard (env : Env) (s : GraphState) (hq : s.query_type = .pdf) :
    (overlapCount s.query s.pdf_context < 2 →
       (MainPy.generate_response env s).fst.llm_response = MainPy.refusalMsg ∧
       (MainPy.generate_response env s).snd = false) ∧
    (2 ≤ overlapCount s.query s.pdf_context →
       (MainPy.generate_response env s).snd = true) := by
  constructor
  · intro hlt
    have hrel : MainPy.is_context_relevant s.query s.pdf_context = false := by
      unfold MainPy.is_context_relevant
      by_cases hst : pyStrip s.pdf_context = ""
      · simp [hst]
      · simp [hst, Nat.not_le_of_lt hlt]
    unfold MainPy.generate_response
    simp [hq, hrel]
  · intro hge
    have hst : pyStrip s.pdf_context ≠ "" := by
      intro hst
      have := overlap_zero_of_strip_empty s.query hst
      omega
    have hrel : MainPy.is_context_relevant s.query s.pdf_context = true := by
      unfold MainPy.is_context_relevant
      simp [hst, hge]
    unfold MainPy.generate_response
    cases hp : env.genPdf s.pdf_context s.query <;> simp [hq, hrel, hp]

/-- A document-routed record with empty retrieved context. -/
def sNoOverlap : GraphState :=
  { initState "alpha beta" with query_type := .pdf, pdf_context := "" }

/-- A document-routed record whose context shares two tokens with the
query. -/
def sOverlap : GraphState :=
  { initState "alpha beta" with
      query_type := .pdf
      pdf_context := "alpha beta gamma" }

/-- Witness for C9: zero shared tokens trigger the refusal without an
LLM call; two shared tokens reach the LLM invocation. -/
theorem c9_witness :
    ((MainPy.generate_response envOk sNoOverlap).fst.llm_response = MainPy.refusalMsg ∧
     (MainPy.generate_response envOk sNoOverlap).snd = false) ∧
    (MainPy.generate_response envOk sOverlap).snd = true :=
  ⟨(c9_relevance_guard envOk sNoOverlap rfl).1 (by decide),
   (c9_relevance_guard envOk sOverlap rfl).2 (by decide)⟩

/-!  Response text at the end of a run. -/

theorem generate_main_nonempty (env : Env)
    (hW : ∀ w q r, env.genWeather w q = .ok r → r ≠ "")
    (hP : ∀ c q r, env.genPdf c q = .ok r → r ≠ "")
    (s : GraphState) : (MainPy.generate_response env s).fst.llm_response ≠ "" := by
  unfold MainPy.generate_response
  cases hqt : s.query_type with
  | weather =>
    cases hwd : s.weather_data with
    | none => simp [MainPy.errMsg]
    | some w =>
      cases hg : env.genWeather w s.query with
      | ok r =>
        simp only [hg]
        simpa using hW w s.query r hg
      | error e => simp [hg, MainPy.errMsg]
  | pdf =>
    by_cases hrel : MainPy.is_context_relevant s.query s.pdf_context
    · simp only [hrel, not_true_eq_false, if_false]
      cases hg : env.genPdf s.pdf_context s.query with
      | ok r =>
        simp only [hg]
        simpa using hP s.pdf_context s.query r hg
      | error e => simp [hg, MainPy.errMsg]
    · simp [hrel, MainPy.refusalMsg]
  | unknown => simp [MainPy.unknownMsg]

theorem generate_test_nonempty (env : Env)
    (hW : ∀ w q r, env.genWeather w q = .ok r → r ≠ "")
    (hWe : ∀ w q e, env.genWeather w q = .error e → e ≠ "")
    (hP : ∀ c q r, env.genPdf c q = .ok r → r ≠ "")
    (hPe : ∀ c q e, env.genPdf c q = .error e → e ≠ "")
    (s : GraphState) : (TestPy.generate_response env s).fst.llm_response ≠ "" := by
  unfold TestPy.generate_response
  cases hqt : s.query_type with
  | weather =>
    cases hwd : s.weather_data with
    | none => simp [TestPy.unknownMsg]
    | some w =>
      cases hg : env.genWeather w s.query with
      | ok r =>
        simp only [hg]
        simpa using hW w s.query r hg
      | error e =>
        simp only [hg]
        simpa using hWe w s.query e hg
  | pdf =>
    cases hg : env.genPdf s.pdf_context s.query with
    | ok r =>
      simp only [hg]
      simpa using hP s.pdf_context s.query r hg
    | error e =>
      simp only [hg]
      simpa using hPe s.pdf_context s.query e hg
  | unknown => simp [TestPy.unknownMsg]

/-- Environment whose successful weather generation returns the empty
string; everything else behaves like `envOk`. -/
def envEmptyGen : Env := { envOk with genWeather := fun _ _ => .ok "" }

/-- Counterexample to C2 as stated: a run of the public `query`
operation in which every external call succeeds but the LLM answers with
the empty string ends with an empty `llm_response`, so the response text
is not a non-empty string at the end of every run. -/
theorem c2_counterexample :
    (MainPy.query envEmptyGen none "weather").llm_response = "" := by decide

/-- C2 (amended): the public `query` operation is a total function (it
cannot raise), `llm_response` is always assigned, every exception path
stores a fixed non-empty fallback (`main.py`) or the exception text
(`test_main.py`), and the final `llm_response` is non-empty provided
every string the LLM layer hands back for the run is non-empty —
successful generation output in `main.py`, and additionally exception
text in `test_main.py`. -/
theorem c2_response_populated (env : Env) :
    ((∀ w q r, env.genWeather w q = .ok r → r ≠ "") →
     (∀ c q r, env.genPdf c q = .ok r → r ≠ "") →
     ∀ vs q, (MainPy.query env vs q).llm_response ≠ "") ∧
    ((∀ w q r, env.genWeather w q = .ok r → r ≠ "") →
     (∀ w q e, env.genWeather w q = .error e → e ≠ "") →
     (∀ c q r, env.genPdf c q = .ok r → r ≠ "") →
     (∀ c q e, env.genPdf c q = .error e → e ≠ "") →
     ∀ vs q, (TestPy.query env vs q).llm_response ≠ "") := by
  constructor
  · intro hW hP vs q
    have h := run_router_state (MainPy.nodeFn env vs) (initState q)
    show (runFrom (MainPy.nodeFn env vs) 4 .router (initState q)).fst.llm_response ≠ ""
    rw [h]
    cases hr : (route_query vs (initState q)).query_type <;>
      simp only [MainPy.nodeFn, hr] <;>
      exact generate_main_nonempty env hW hP _
  · intro hW hWe hP hPe vs q
    have h := run_router_state (TestPy.nodeFn env vs) (initState q)
    show (runFrom (TestPy.nodeFn env vs) 4 .router (initState q)).fst.llm_response ≠ ""
    rw [h]
    cases hr : (route_query vs (initState q)).query_type <;>
      simp only [TestPy.nodeFn, hr] <;>
      exact generate_test_nonempty env hW hWe hP hPe _

/-- Witness for the amended C2: with every LLM string non-empty, both
variants end a run with a non-empty response. -/
theorem c2_witness :
    (MainPy.query envOk none "hello").llm_response ≠ "" ∧
    (TestPy.query envOk none "hello").llm_response ≠ "" :=
  ⟨(c2_response_populated envOk).1
     (by intro w q r h; injection h with h; subst h; decide)
     (by intro c q r h; injection h with h; subst h; decide)
     none "hello",
   (c2_response_populated envOk).2
     (by intro w q r h; injection h with h; subst h; decide)
     (by intro w q e h; simp [envOk] at h)
     (by intro c q r h; injection h with h; subst h; decide)
     (by intro c q e h; simp [envOk] at h)
     none "hello"⟩

/-- C10: a successful `load_pdf` builds a fresh in-memory store holding
exactly the chunks of the one loaded PDF and overwrites
`self.vector_store` with it, whatever the prior store was — in
particular after loading `a` and then `b` only `b`'s chunks remain;
`app.py`'s loop over a directory therefore leaves the index of its last
PDF; and document fetch against that store retrieves only chunks stored
in it. -/
theorem c10_store_replaced (env : Env) (vs : Store) (a b : String) (cs : List String)
    (hb1 : env.loadChunks b = .ok cs) (hb2 : env.buildIndex cs = .ok ()) :
    (∀ vs', MainPy.load_pdf env vs' b = (true, some cs)) ∧
    (MainPy.load_pdf env (MainPy.load_pdf env vs a).snd b).snd = some cs ∧
    (∀ ps, loadAllPdfs env vs (ps ++ [b]) = some cs) ∧
    (∀ q ds, retrievedDocs env cs q = .ok ds → ∀ d ∈ ds, d ∈ cs) ∧
    (∀ s, ∃ ds, (∀ d ∈ ds, d ∈ cs) ∧
       (MainPy.fetch_pdf_context env (some cs) s).pdf_context =
         String.intercalate "\n\n" ds) := by
  have hload : ∀ vs', MainPy.load_pdf env vs' b = (true, some cs) := by
    intro vs'
    unfold MainPy.load_pdf
    simp [hb1, hb2]
  have hret : ∀ q ds, retrievedDocs env cs q = .ok ds → ∀ d ∈ ds, d ∈ cs := by
    intro q ds h d hd
    unfold retrievedDocs at h
    cases hs : env.search cs q with
    | error e => rw [hs] at h; cases h
    | ok idxs =>
      rw [hs] at h
      injection h with h
      subst h
      rcases List.mem_filterMap.mp hd with ⟨i, _, hget⟩
      exact List.get?_mem hget
  refine ⟨hload, by rw [hload], ?_, hret, ?_⟩
  · intro ps
    unfold loadAllPdfs
    rw [List.foldl_append]
    simp [hload]
  · intro s
    unfold MainPy.fetch_pdf_context
    cases hr : retrievedDocs env cs s.query with
    | ok ds =>
      exact ⟨ds, fun d hd => hret s.query ds hr d hd, by simp [hr]⟩
    | error e =>
      exact ⟨[], by simp, by simp [hr, String.intercalate]⟩

/-- Witness for C10: loading `a.pdf` then `b.pdf` in `envOk` leaves a
store holding exactly `b.pdf`'s two chunks, and so does `app.py`'s loop
over both files. -/
theorem c10_witness :
    (MainPy.load_pdf envOk (MainPy.load_pdf envOk none "a.pdf").snd "b.pdf").snd =
      some ["b.pdf chunk one", "b.pdf chunk two"] ∧
    loadAllPdfs envOk none ["a.pdf", "b.pdf"] =
      some ["b.pdf chunk one", "b.pdf chunk two"] := by
  have h := c10_store_replaced envOk none "a.pdf" "b.pdf"
    ["b.pdf chunk one", "b.pdf chunk two"] rfl rfl
  exact ⟨h.2.1, h.2.2.1 ["a.pdf"]⟩
